import Mathlib

/-!
Verification development for the property-verification core of the ICHack26
backend (job queue, phone-call orchestration, transcript classification).

Each definition is a shallow embedding of a Python function or class from the
repository sources, named after the source symbol it embeds.  Machine behaviour
that matters is made explicit: Python exceptions are modelled as `Except`
errors (in particular, access to a missing enum member is an
`AttributeError`), and the string `\x27` escape denotes an apostrophe
character inside keyword literals taken verbatim from the source.
-/

namespace ICHack26

/-- The members of the `VerificationStatus` enum, from
`backend/services/verification/models.py` lines 9-19.  Note the enum defines
`UNCLEAR` and `PENDING_REVIEW` but no `UNSURE` and no `UNAVAILABLE`. -/
inductive VerificationStatus
  | PENDING
  | PROCESSING
  | AVAILABLE
  | SOLD
  | RENTED
  | UNCLEAR
  | PENDING_REVIEW
  | FAILED
  deriving DecidableEq, Repr

/-- Python runtime errors that the embedded code can raise. -/
inductive PyErr
  | attributeError (enumName member : String)
  | valueError (msg : String)
  | timeoutError (msg : String)
  | httpError (msg : String)
  deriving DecidableEq, Repr

/-- Name resolution for members of `VerificationStatus` (the member list of the
enum in `models.py`). -/
def VerificationStatus.fromName : String → Option VerificationStatus
  | "PENDING" => some .PENDING
  | "PROCESSING" => some .PROCESSING
  | "AVAILABLE" => some .AVAILABLE
  | "SOLD" => some .SOLD
  | "RENTED" => some .RENTED
  | "UNCLEAR" => some .UNCLEAR
  | "PENDING_REVIEW" => some .PENDING_REVIEW
  | "FAILED" => some .FAILED
  | _ => none

/-- Attribute access `VerificationStatus.<member>` as written in the Python
source: succeeds when the member exists, raises `AttributeError` otherwise. -/
def statusAttr (member : String) : Except PyErr VerificationStatus :=
  match VerificationStatus.fromName member with
  | some v => Except.ok v
  | none => Except.error (PyErr.attributeError "VerificationStatus" member)

/-! Character classes of the Python `re` module (ASCII fragment, which covers
every keyword and pattern in the source). -/

/-- Python regex `\w`. -/
def isWordChar (c : Char) : Bool := c.isAlphanum || c = '_'

/-- Python regex `\s` (space, tab, newline, carriage return, vertical tab,
form feed). -/
def isSpaceChar (c : Char) : Bool :=
  c = ' ' || c = '\t' || c = '\n' || c = '\r' || c = '\x0b' || c = '\x0c'

/-- The optional quote class `["\x27]` used by the user-response patterns. -/
def isQuoteChar (c : Char) : Bool := c = '"' || c = '\x27'

/-- Python `str.lower()` (ASCII fragment), written so that it evaluates by
kernel reduction. -/
def strLower (s : String) : String := ⟨s.data.map Char.toLower⟩

/-- Bool-valued list-prefix test. -/
def isPrefixL : List Char → List Char → Bool
  | [], _ => true
  | _ :: _, [] => false
  | a :: as, b :: bs => a == b && isPrefixL as bs

/-- Python `needle in haystack` on strings: substring containment. -/
def containsSub (needle : List Char) : List Char → Bool
  | [] => needle.isEmpty
  | c :: rest => isPrefixL needle (c :: rest) || containsSub needle rest

/-- Drop a maximal run of regex whitespace (`\s*`). -/
def skipSpaces : List Char → List Char
  | [] => []
  | c :: rest => if isSpaceChar c then skipSpaces rest else c :: rest

/-- Split off a maximal run of word characters (`\w*`). -/
def takeWordRun : List Char → List Char × List Char
  | [] => ([], [])
  | c :: rest =>
    if isWordChar c then
      match takeWordRun rest with
      | (run, rem) => (c :: run, rem)
    else ([], c :: rest)

/-- Match the tail `\s*["\x27]?(\w+)["\x27]?` of both user-response patterns
at the start of `l`.  Returns the capture, the remainder after the whole
match, and whether the last consumed character is a word character (the
word-boundary state for the scan that resumes after the match). -/
def matchCore (l : List Char) : Option (List Char × List Char × Bool) :=
  let l1 := skipSpaces l
  let l2 := match l1 with
    | c :: rest => if isQuoteChar c then rest else l1
    | [] => []
  match takeWordRun l2 with
  | ([], _) => none
  | (cap, rem) =>
    match rem with
    | c :: r2 => if isQuoteChar c then some (cap, r2, false) else some (cap, rem, true)
    | [] => some (cap, [], true)

/-- Match the first user-response pattern `\buser:\s*["\x27]?(\w+)["\x27]?`
at the start of `l` (the word boundary is checked by the caller). -/
def matchUserAt (l : List Char) : Option (List Char × List Char × Bool) :=
  if isPrefixL "user:".data l then matchCore (l.drop 5) else none

/-- Try the alternatives of `(?:said|responded|replied)` as prefixes of `l`,
returning the remainder after the first one that matches. -/
def dropSaidWord (l : List Char) : Option (List Char) :=
  if isPrefixL "said".data l then some (l.drop 4)
  else if isPrefixL "responded".data l then some (l.drop 9)
  else if isPrefixL "replied".data l then some (l.drop 7)
  else none

/-- Attempt the optional group `(?:\s+(?:said|responded|replied))` at the
start of `l`: at least one whitespace character, then one of the verbs. -/
def trySaidGroup (l : List Char) : Option (List Char) :=
  let s := skipSpaces l
  if s.length < l.length then dropSaidWord s else none

/-- Match the rest of the second user-response pattern after its trigger word:
`(?:\s+(?:said|responded|replied))?\s*["\x27]?(\w+)["\x27]?`, with the
backtracking the Python engine performs when the optional group is taken but
the tail then fails. -/
def matchRespAfter (l : List Char) : Option (List Char × List Char × Bool) :=
  match trySaidGroup l with
  | some l2 =>
    match matchCore l2 with
    | some r => some r
    | none => matchCore l
  | none => matchCore l

/-- Match the second user-response pattern
`\b(?:caller|user|prospect|tenant|buyer)(?:\s+(?:said|responded|replied))?\s*["\x27]?(\w+)["\x27]?`
at the start of `l` (word boundary checked by the caller).  The five trigger
words are tried in the order of the alternation; none is a prefix of another,
so at most one applies at a given position. -/
def matchRespAt (l : List Char) : Option (List Char × List Char × Bool) :=
  if isPrefixL "caller".data l then matchRespAfter (l.drop 6)
  else if isPrefixL "user".data l then matchRespAfter (l.drop 4)
  else if isPrefixL "prospect".data l then matchRespAfter (l.drop 8)
  else if isPrefixL "tenant".data l then matchRespAfter (l.drop 6)
  else if isPrefixL "buyer".data l then matchRespAfter (l.drop 5)
  else none

/-- The scan loop of `re.findall`: try the positional matcher at each
position, restart after the end of each non-overlapping match, and track
whether the previous character is a word character (for `\b`).  `fuel` is an
upper bound on the number of scan steps; every step consumes at least one
character, so `fuel = l.length` is always enough. -/
def findAllGo (matchAt : List Char → Option (List Char × List Char × Bool)) :
    Nat → Bool → List Char → List (List Char)
  | 0, _, _ => []
  | _ + 1, _, [] => []
  | fuel + 1, prevWord, c :: rest =>
    if prevWord then findAllGo matchAt fuel (isWordChar c) rest
    else
      match matchAt (c :: rest) with
      | some (cap, rem, pw) => cap :: findAllGo matchAt fuel pw rem
      | none => findAllGo matchAt fuel (isWordChar c) rest

/-- `re.findall` of the first user-response pattern over `l`. -/
def findAllUserColon (l : List Char) : List (List Char) :=
  findAllGo matchUserAt l.length false l

/-- `re.findall` of the second user-response pattern over `l`. -/
def findAllResp (l : List Char) : List (List Char) :=
  findAllGo matchRespAt l.length false l

/-- The `user_statements` list of `_analyze_transcript`: the captures of the
two `user_response_patterns`, in pattern order. -/
def user_statements (lower : List Char) : List (List Char) :=
  findAllUserColon lower ++ findAllResp lower

/-- The `["no", "nope", "nope.", "no."]` membership list from the source. -/
def no_family : List String := ["no", "nope", "nope.", "no."]

/-- The `["yes", "yes.", "yep", "yep."]` membership list from the source. -/
def yes_family : List String := ["yes", "yes.", "yep", "yep."]

/-- The loop over extracted user statements: the first statement found in the
no-family yields `some false` (the UNAVAILABLE branch), the first in the
yes-family yields `some true` (the AVAILABLE branch). -/
def firstYesNo : List (List Char) → Option Bool
  | [] => none
  | s :: rest =>
    if no_family.any (fun w => w.data == s) then some false
    else if yes_family.any (fun w => w.data == s) then some true
    else firstYesNo rest

/-- `unavailable_keywords` from `_analyze_transcript` (PRIORITY 2). -/
def unavailable_keywords : List String :=
  ["sold", "let", "rented", "taken", "no longer available", "off market",
   "withdrawn", "delisted", "no longer listed", "already sold",
   "already rented", "no longer for rent", "no longer for sale",
   "no longer selling", "been let", "been rented"]

/-- `available_keywords` from `_analyze_transcript` (PRIORITY 3). -/
def available_keywords : List String :=
  ["yes", "available", "still available", "still listed", "still on market",
   "on the market", "can show", "can view", "can arrange a viewing",
   "viewing available", "listed", "listing is active", "still have",
   "still selling", "haven\x27t sold", "actively marketing",
   "great opportunity"]

/-- `unsure_keywords` from `_analyze_transcript` (PRIORITY 4). -/
def unsure_keywords : List String :=
  ["not sure", "i think so", "maybe", "i believe so", "might be",
   "need to check", "let me check", "not entirely sure",
   "i\x27m not certain", "can\x27t find"]

/-- A keyword loop `for keyword in kws: if keyword in lower_transcript`. -/
def anyKeyword (kws : List String) (lower : List Char) : Bool :=
  kws.any (fun k => containsSub k.data lower)

/-- Search for `(?:alt_a)\s+(?:alt_b)` anchored at the start of `l`. -/
def seqMatchAt (altsA altsB : List String) (l : List Char) : Bool :=
  altsA.any fun a =>
    isPrefixL a.data l &&
      (let t := l.drop a.data.length
       let r := skipSpaces t
       decide (r.length < t.length) && altsB.any (fun b => isPrefixL b.data r))

/-- `re.search` of `(?:alt_a)\s+(?:alt_b)` over `l` (no word boundaries appear
in the negation patterns of the source). -/
def seqSearch (altsA altsB : List String) : List Char → Bool
  | [] => false
  | c :: rest => seqMatchAt altsA altsB (c :: rest) || seqSearch altsA altsB rest

/-- The three `negation_patterns` of `_analyze_transcript` (PRIORITY 5),
each of shape `(?:...)\s+(?:...)`. -/
def negation_search (lower : List Char) : Bool :=
  seqSearch ["it\x27s not", "isn\x27t", "not"]
    ["available", "listed", "on the market", "for sale"] lower
  || seqSearch ["don\x27t have", "can\x27t find", "couldn\x27t locate"]
    ["that", "this", "the property"] lower
  || seqSearch ["no longer", "not anymore", "never"]
    ["available", "listed", "for sale", "for rent"] lower

/-- Match `still\s+(?:available|listed|on\s+market)` at the start of `l`. -/
def stillMatchAt (l : List Char) : Bool :=
  isPrefixL "still".data l &&
    (let t := l.drop 5
     let r := skipSpaces t
     decide (r.length < t.length) &&
       (isPrefixL "available".data r || isPrefixL "listed".data r ||
         (isPrefixL "on".data r &&
           (let t2 := r.drop 2
            let r2 := skipSpaces t2
            decide (r2.length < t2.length) && isPrefixL "market".data r2))))

/-- `re.search` of the second affirmation pattern
`(?:still\s+(?:available|listed|on\s+market))`. -/
def stillSearch : List Char → Bool
  | [] => false
  | c :: rest => stillMatchAt (c :: rest) || stillSearch rest

/-- The two `affirmation_patterns` of `_analyze_transcript`: the first is an
alternation of three literals and `currently\s+(?:have|list)`, the second is
`(?:still\s+(?:available|listed|on\s+market))`. -/
def affirmation_search (lower : List Char) : Bool :=
  containsSub "we still have".data lower
  || containsSub "we\x27re still".data lower
  || containsSub "we continue to".data lower
  || seqSearch ["currently"] ["have", "list"] lower
  || stillSearch lower

/-- Shallow embedding of the module-level `_analyze_transcript` of
`backend/services/verification/service.py` (lines 16-161; the code after the
unconditional return on line 161 is unreachable).  A `None` or empty
transcript and every branch that names `VerificationStatus.UNSURE` or
`VerificationStatus.UNAVAILABLE` raise `AttributeError`, because the enum has
no such members; `listing_type` is never read. -/
def analyze_transcript (transcript : Option String) (listing_type : Option String) :
    Except PyErr VerificationStatus :=
  match transcript with
  | none => statusAttr "UNSURE"
  | some t =>
    if t.data.isEmpty then statusAttr "UNSURE"
    else
      let lower := t.data.map Char.toLower
      match firstYesNo (user_statements lower) with
      | some false => statusAttr "UNAVAILABLE"
      | some true => statusAttr "AVAILABLE"
      | none =>
        if anyKeyword unavailable_keywords lower then statusAttr "UNAVAILABLE"
        else if anyKeyword available_keywords lower then statusAttr "AVAILABLE"
        else if anyKeyword unsure_keywords lower then statusAttr "UNSURE"
        else if negation_search lower then statusAttr "UNAVAILABLE"
        else if affirmation_search lower then statusAttr "AVAILABLE"
        else statusAttr "UNSURE"

/-! Phone-target selection and client selection
(`backend/services/verification/service.py` lines 340-347 and
`backend/services/verification/bland_client.py` lines 183-220). -/

/-- The `bland_ai_*` attributes that `service.py` and `bland_client.py` read
from `backend.config.settings`.  (The `Settings` class of `backend/config.py`
does not actually declare these fields, so the reads would raise
`AttributeError` at runtime; the claims are about the selection logic as
written, so the fields are modelled as present.) -/
structure BlandSettings where
  bland_ai_mock_phone_number : String
  bland_ai_mock_mode : Bool
  bland_ai_timeout_seconds : Nat
  deriving DecidableEq, Repr

/-- The phone-target selection of `_verify_property_async` (service.py lines
340-343): `phone_to_call = settings.bland_ai_mock_phone_number`, with the
source comment "ALWAYS use your test phone number for verification calls".
The property's `agent_phone` (fetched earlier in the function) is never
dialled. -/
def phone_to_call (settings : BlandSettings) (agent_phone : String) : String :=
  settings.bland_ai_mock_phone_number

/-- The two client classes `get_bland_client` can construct. -/
inductive BlandClientKind
  | realClient
  | mockClient
  deriving DecidableEq, Repr

/-- The client-selection logic of `get_bland_client` (bland_client.py lines
194-220), run on a cold singleton: `is_pytest = "pytest" in sys.modules`; the
mock client is chosen exactly when pytest is loaded, and
`bland_ai_mock_mode` only changes a log message. -/
def get_bland_client (pytest_loaded : Bool) (settings : BlandSettings) :
    BlandClientKind :=
  if pytest_loaded then BlandClientKind.mockClient else BlandClientKind.realClient

/-! Call polling
(`backend/services/verification/bland_client.py` lines 139-176 and
`backend/services/verification/elevenlabs_client.py` lines 112-164). -/

/-- The call record built by `BlandAIClient.get_call_result`.  `models.py`
does not actually define the `BlandCallResult` class it is imported from;
the fields here are the ones `bland_client.py` constructs (spec §3
`CallRecord`). -/
structure BlandCallResult where
  call_id : String
  status : String
  duration : Nat
  transcript : Option String
  success : Bool
  deriving DecidableEq, Repr

/-- The terminal statuses checked by `BlandAIClient.wait_for_call_completion`
(line 167). -/
def bland_terminal_statuses : List String := ["completed", "failed", "error"]

/-- Shallow embedding of `BlandAIClient.wait_for_call_completion` (lines
139-176).  `polls` is the sequence of `get_call_result` responses the loop
observes before `max_wait` elapses (one per iteration; a `none` entry is a
fetch error, which the loop sleeps through).  Exhausting the sequence is the
`time.time() - start_time < max_wait` loop condition failing: the function
returns `None` — a value, not an exception. -/
def wait_for_call_completion : List (Option BlandCallResult) → Option BlandCallResult
  | [] => none
  | p :: rest =>
    match p with
    | none => wait_for_call_completion rest
    | some r =>
      if bland_terminal_statuses.contains r.status then some r
      else wait_for_call_completion rest

/-- The call-status payload returned by `ElevenLabsClient.get_call_status`
(only the fields the polling loop reads). -/
structure ElevenLabsCallStatus where
  status : String
  transcript : Option String
  deriving DecidableEq, Repr

/-- The terminal statuses checked by
`ElevenLabsClient.wait_for_call_completion` (lines 144-149). -/
def elevenlabs_terminal_statuses : List String :=
  ["completed", "failed", "failed_to_connect", "no_answer"]

/-- Shallow embedding of `ElevenLabsClient.wait_for_call_completion` (lines
112-164).  `polls` is the sequence of `get_call_status` outcomes observed
while `elapsed < max_wait_ms`; an HTTP error is re-raised, and when the
window is exhausted without a terminal status the function raises
`TimeoutError` — it does not return a timeout value. -/
def el_wait_for_call_completion (call_id : String) (max_wait_seconds : Nat) :
    List (Except String ElevenLabsCallStatus) → Except PyErr ElevenLabsCallStatus
  | [] =>
    Except.error (PyErr.timeoutError
      ("Call " ++ call_id ++ " did not complete within " ++
        toString max_wait_seconds ++ " seconds"))
  | p :: rest =>
    match p with
    | Except.error e => Except.error (PyErr.httpError e)
    | Except.ok st =>
      if elevenlabs_terminal_statuses.contains (strLower st.status) then Except.ok st
      else el_wait_for_call_completion call_id max_wait_seconds rest

/-! The verification job handler and per-job exception handling
(`backend/app/main.py` lines 97-156, `backend/app/crud.py`
`get_property_for_verification`, `backend/services/verification/jobs.py`
lines 129-161). -/

/-- Job life-cycle statuses (`JobStatus` in jobs.py lines 13-19). -/
inductive JobStatus
  | queued
  | processing
  | completed
  | failed
  deriving DecidableEq, Repr

/-- The `VerificationResult` fields relevant to job results (models.py lines
63-88; the confidence score is a rational in [0,1] there). -/
structure VerificationResultM where
  property_id : Int
  verification_status : VerificationStatus
  confidence_score : Rat
  notes : Option String
  error_message : Option String
  deriving DecidableEq, Repr

/-- The mutable per-job state of `VerificationJob` (jobs.py lines 22-33;
timestamps and the uuid job id are not modelled). -/
structure VerificationJobM where
  property_id : Int
  status : JobStatus
  error : Option String
  result : Option VerificationResultM
  deriving DecidableEq, Repr

/-- Python truthiness of an optional string: `not x` holds for `None` and for
the empty string. -/
def falsyOptStr : Option String → Bool
  | none => true
  | some s => s == ""

/-- The configuration fields of `backend/config.py` that the verification
startup path reads. -/
structure AppSettings where
  elevenlabs_api_key : Option String
  elevenlabs_agent_id : Option String
  elevenlabs_phone_number : Option String
  verification_call_timeout : Nat
  deriving DecidableEq, Repr

/-- A row of the `properties` table, restricted to the columns
`get_property_for_verification` selects. -/
structure PropertyRow where
  id : Int
  full_address : Option String
  agent_phone : Option String
  agent_name : Option String
  deriving DecidableEq, Repr

/-- Shallow embedding of `crud.get_property_for_verification` (the second,
effective definition in crud.py): `SELECT ... WHERE id = ? AND agent_phone IS
NOT NULL AND agent_phone != ''` — a row is returned only when it has a
non-null, non-empty agent phone. -/
def get_property_for_verification (db : List PropertyRow) (property_id : Int) :
    Option PropertyRow :=
  db.find? (fun p => p.id == property_id && !(falsyOptStr p.agent_phone))

/-- Shallow embedding of the `process_verification_jobs` handler defined in
the `lifespan` startup of `backend/app/main.py` (lines 97-156).
`verify_outcome` stands for the result of
`verification_service.verify_property(...)` together with the persistence
calls (the `PropertyVerificationService` class is imported from a module that
does not define it; its outcome is an oracle parameter here).  The handler's
`except` block updates the database and re-raises, so the returned `Except`
value carries the same error the handler raises. -/
def process_verification_jobs (settings : AppSettings) (db : List PropertyRow)
    (verify_outcome : Except String VerificationResultM)
    (job : VerificationJobM) : Except String VerificationResultM :=
  if falsyOptStr settings.elevenlabs_agent_id ||
      falsyOptStr settings.elevenlabs_phone_number then
    Except.error "ElevenLabs Agent ID and phone number not configured"
  else
    match get_property_for_verification db job.property_id with
    | none =>
      Except.error ("Property " ++ toString job.property_id ++
        " not found or has no agent phone")
    | some _ => verify_outcome

/-- Shallow embedding of `JobQueue._process_job` (jobs.py lines 129-161) as a
state transformer on one job: the job is marked `PROCESSING`, the handler
runs, a normal return stores the result and marks `COMPLETED`, and any
exception is caught, stringified into `job.error`, and marks `FAILED`
(timestamps and the `active_jobs` decrement of the `finally` block are
modelled in the queue transition system below). -/
def process_job (job : VerificationJobM)
    (handler_outcome : Except String VerificationResultM) : VerificationJobM :=
  let j1 := { job with status := JobStatus.processing }
  match handler_outcome with
  | Except.ok r => { j1 with result := some r, status := JobStatus.completed }
  | Except.error e => { j1 with error := some e, status := JobStatus.failed }

/-- Outcome of a FastAPI endpoint: a response or an `HTTPException`. -/
inductive HttpResult (α : Type)
  | ok (a : α)
  | httpException (status_code : Nat) (detail : String)
  deriving DecidableEq, Repr

/-- Shallow embedding of the `POST /api/verify/property/{property_id}`
endpoint `start_property_verification` (main.py lines 490-533): 503 when the
API key is not configured, 404 when the property is missing or has no agent
phone, otherwise a job is created in state `QUEUED` and enqueued. -/
def start_property_verification (settings : AppSettings) (db : List PropertyRow)
    (property_id : Int) : HttpResult VerificationJobM :=
  if falsyOptStr settings.elevenlabs_api_key then
    HttpResult.httpException 503 "Verification service not configured"
  else
    match get_property_for_verification db property_id with
    | none =>
      HttpResult.httpException 404 ("Property " ++ toString property_id ++
        " not found or has no agent phone number")
    | some _ =>
      HttpResult.ok
        { property_id := property_id, status := JobStatus.queued,
          error := none, result := none }

/-! A small-step model of `JobQueue` (jobs.py lines 51-193).  The dispatch
loop (`process_jobs`) and each worker (`_process_job`) are cooperative tasks
sharing the single `asyncio.Lock`.  The lock-protected critical sections of
the source are kept explicit so that it is visible which writes happen under
the lock: the dispatcher's admission (acquire, spin while
`active_jobs >= max_concurrent`, increment, release), the worker's entry
section (set status PROCESSING, set started_at) and the worker's `finally`
section (set completed_at, decrement `active_jobs`).  The body of the `try`
block — `job.status = COMPLETED` / the `except` branch `job.status = FAILED`
— runs with no lock held, exactly as in the source. -/

/-- Program counter of one worker task (`_process_job` for one job).
`unstarted`: enqueued, not yet admitted by the dispatch loop; `started`:
admitted (the counter was incremented and `create_task` ran), about to
acquire the lock; `inCrit1`: holds the lock in the entry section; `running`:
executing `await job_handler(job)`; `bodyDone`: the try/except body finished
and wrote the terminal status (no lock held); `inCrit2`: holds the lock in
the `finally` section; `finished`: done. -/
inductive WPc
  | unstarted
  | started
  | inCrit1
  | running
  | bodyDone
  | inCrit2
  | finished
  deriving DecidableEq, Repr

/-- One job in the queue model: its visible status, whether its handler will
raise, and its worker's program counter. -/
structure JobT where
  status : JobStatus
  fails : Bool
  pc : WPc
  deriving DecidableEq, Repr

/-- Who holds the `asyncio.Lock`. -/
inductive LockHolder
  | dispatcher
  | worker (i : Nat)
  deriving DecidableEq, Repr

/-- Program counter of the dispatch loop: idle between admissions, or
holding the lock and spinning in `while self.active_jobs >=
self.max_concurrent: await asyncio.sleep(0.1)` after pulling job `i`. -/
inductive DPc
  | dIdle
  | dWaiting (i : Nat)
  deriving DecidableEq, Repr

/-- The shared state of `JobQueue`: the registry (list order = enqueue
order), the `active_jobs` counter, the lock, and the dispatcher pc. -/
structure QState where
  jobs : List JobT
  active : Nat
  lock : Option LockHolder
  dpc : DPc
  deriving DecidableEq, Repr

/-- A fresh queue (`JobQueue.__init__`). -/
def initState : QState := { jobs := [], active := 0, lock := none, dpc := DPc.dIdle }

/-- The interleaved small steps of the dispatch loop and the workers.  Job
identity is the position in the registry list (`l₁.length`). -/
inductive Step (max_concurrent : Nat) : QState → QState → Prop
  | enqueue (s : QState) (fails : Bool) :
      Step max_concurrent s
        { s with jobs := s.jobs ++ [⟨JobStatus.queued, fails, WPc.unstarted⟩] }
  | admitJob (s : QState) (l₁ : List JobT) (j : JobT) (l₂ : List JobT) :
      s.jobs = l₁ ++ j :: l₂ → j.pc = WPc.unstarted → s.dpc = DPc.dIdle →
      s.lock = none → s.active < max_concurrent →
      Step max_concurrent s
        { s with jobs := l₁ ++ { j with pc := WPc.started } :: l₂,
                 active := s.active + 1 }
  | dispatchBlock (s : QState) (l₁ : List JobT) (j : JobT) (l₂ : List JobT) :
      s.jobs = l₁ ++ j :: l₂ → j.pc = WPc.unstarted → s.dpc = DPc.dIdle →
      s.lock = none → max_concurrent ≤ s.active →
      Step max_concurrent s
        { s with lock := some LockHolder.dispatcher, dpc := DPc.dWaiting l₁.length }
  | dispatchResume (s : QState) (l₁ : List JobT) (j : JobT) (l₂ : List JobT) :
      s.jobs = l₁ ++ j :: l₂ → j.pc = WPc.unstarted →
      s.dpc = DPc.dWaiting l₁.length → s.lock = some LockHolder.dispatcher →
      s.active < max_concurrent →
      Step max_concurrent s
        { s with jobs := l₁ ++ { j with pc := WPc.started } :: l₂,
                 active := s.active + 1, lock := none, dpc := DPc.dIdle }
  | acquire1 (s : QState) (l₁ : List JobT) (j : JobT) (l₂ : List JobT) :
      s.jobs = l₁ ++ j :: l₂ → j.pc = WPc.started → s.lock = none →
      Step max_concurrent s
        { s with jobs := l₁ ++ { j with pc := WPc.inCrit1 } :: l₂,
                 lock := some (LockHolder.worker l₁.length) }
  | setProcessing (s : QState) (l₁ : List JobT) (j : JobT) (l₂ : List JobT) :
      s.jobs = l₁ ++ j :: l₂ → j.pc = WPc.inCrit1 →
      s.lock = some (LockHolder.worker l₁.length) →
      Step max_concurrent s
        { s with jobs :=
            l₁ ++ { j with pc := WPc.running, status := JobStatus.processing } :: l₂,
                 lock := none }
  | finishBody (s : QState) (l₁ : List JobT) (j : JobT) (l₂ : List JobT) :
      s.jobs = l₁ ++ j :: l₂ → j.pc = WPc.running →
      Step max_concurrent s
        { s with jobs :=
            l₁ ++ { j with
                     pc := WPc.bodyDone,
                     status := (if j.fails then JobStatus.failed else JobStatus.completed) } :: l₂ }
  | acquire2 (s : QState) (l₁ : List JobT) (j : JobT) (l₂ : List JobT) :
      s.jobs = l₁ ++ j :: l₂ → j.pc = WPc.bodyDone → s.lock = none →
      Step max_concurrent s
        { s with jobs := l₁ ++ { j with pc := WPc.inCrit2 } :: l₂,
                 lock := some (LockHolder.worker l₁.length) }
  | finalize (s : QState) (l₁ : List JobT) (j : JobT) (l₂ : List JobT) :
      s.jobs = l₁ ++ j :: l₂ → j.pc = WPc.inCrit2 →
      s.lock = some (LockHolder.worker l₁.length) →
      Step max_concurrent s
        { s with jobs := l₁ ++ { j with pc := WPc.finished } :: l₂,
                 active := s.active - 1, lock := none }

/-- States the queue can reach from a fresh instance. -/
def QueueReachable (max_concurrent : Nat) (s : QState) : Prop :=
  Relation.ReflTransGen (Step max_concurrent) initState s

/-- Worker phases counted by `active_jobs`: the counter is incremented at
admission (before `create_task`) and decremented in the worker's `finally`
section. -/
def countedPc : WPc → Bool
  | WPc.started => true
  | WPc.inCrit1 => true
  | WPc.running => true
  | WPc.bodyDone => true
  | WPc.inCrit2 => true
  | _ => false

/-- Number of jobs whose status is `PROCESSING`. -/
def countProcessing (s : QState) : Nat :=
  s.jobs.countP (fun j => j.status == JobStatus.processing)

/-- Number of workers currently counted by `active_jobs`. -/
def countActive (s : QState) : Nat :=
  s.jobs.countP (fun j => countedPc j.pc)

/-- Per-job coherence between the worker's program counter and the job's
visible status. -/
def coher (j : JobT) : Prop :=
  match j.pc with
  | WPc.unstarted => j.status = JobStatus.queued
  | WPc.started => j.status = JobStatus.queued
  | WPc.inCrit1 => j.status = JobStatus.queued
  | WPc.running => j.status = JobStatus.processing
  | WPc.bodyDone => j.status = JobStatus.completed ∨ j.status = JobStatus.failed
  | WPc.inCrit2 => j.status = JobStatus.completed ∨ j.status = JobStatus.failed
  | WPc.finished => j.status = JobStatus.completed ∨ j.status = JobStatus.failed

/-- The inductive invariant of the queue model. -/
structure QInv (max_concurrent : Nat) (s : QState) : Prop where
  activeEq : s.active = countActive s
  activeLe : s.active ≤ max_concurrent
  coherAll : ∀ j ∈ s.jobs, coher j

/-! Concrete states of a two-job run with `max_concurrent = 1`, used below:
job 0 is admitted and starts processing, the dispatcher then pulls job 1,
acquires the lock and spins (holding the lock across its sleep), and job 0's
handler then returns, writing `COMPLETED` while the dispatcher still holds
the lock. -/

/-- A freshly enqueued job whose handler will succeed. -/
def jobQ : JobT := { status := JobStatus.queued, fails := false, pc := WPc.unstarted }

/-- Trace state: both jobs enqueued. -/
def traceS2 : QState :=
  { jobs := [jobQ, jobQ], active := 0, lock := none, dpc := DPc.dIdle }

/-- Trace state: job 0 admitted. -/
def traceS3 : QState :=
  { jobs := [{ jobQ with pc := WPc.started }, jobQ], active := 1, lock := none,
    dpc := DPc.dIdle }

/-- Trace state: job 0's worker holds the lock in its entry section. -/
def traceS4 : QState :=
  { jobs := [{ jobQ with pc := WPc.inCrit1 }, jobQ], active := 1,
    lock := some (LockHolder.worker 0), dpc := DPc.dIdle }

/-- Trace state: job 0 is `PROCESSING` and its handler is running. -/
def traceS5 : QState :=
  { jobs := [{ status := JobStatus.processing, fails := false, pc := WPc.running },
             jobQ],
    active := 1, lock := none, dpc := DPc.dIdle }

/-- Trace state: the dispatcher pulled job 1, acquired the lock, and spins
because `active_jobs >= max_concurrent`. -/
def traceS6 : QState :=
  { jobs := [{ status := JobStatus.processing, fails := false, pc := WPc.running },
             jobQ],
    active := 1, lock := some LockHolder.dispatcher, dpc := DPc.dWaiting 1 }

/-- Trace state: job 0's handler returned and the worker wrote `COMPLETED`
while the dispatcher holds the lock. -/
def traceS7 : QState :=
  { jobs := [{ status := JobStatus.completed, fails := false, pc := WPc.bodyDone },
             jobQ],
    active := 1, lock := some LockHolder.dispatcher, dpc := DPc.dWaiting 1 }

/-- Trace state: only the first of the two jobs enqueued. -/
def traceS1 : QState :=
  { jobs := [jobQ], active := 0, lock := none, dpc := DPc.dIdle }

/-! Concrete inputs used to instantiate the theorems below. -/

/-- Settings with mock mode off, i.e. the mode the source logs as
"PRODUCTION MODE (calling agent phone)". -/
def production_settings : BlandSettings :=
  { bland_ai_mock_phone_number := "+15005550006", bland_ai_mock_mode := false,
    bland_ai_timeout_seconds := 120 }

/-- A fully configured verification service. -/
def configured_settings : AppSettings :=
  { elevenlabs_api_key := some "api-key", elevenlabs_agent_id := some "agent-1",
    elevenlabs_phone_number := some "+10000000000", verification_call_timeout := 600 }

/-- Property 43 of the spec scenarios: it exists but has no agent phone. -/
def no_phone_row : PropertyRow :=
  { id := 43, full_address := some "10 Test Road, London", agent_phone := none,
    agent_name := none }

/-- A queued verification job for property 43. -/
def job43 : VerificationJobM :=
  { property_id := 43, status := JobStatus.queued, error := none, result := none }

/-- An arbitrary successful outcome for the verify-property oracle (never
reached on the no-phone path). -/
def dummy_result : VerificationResultM :=
  { property_id := 43, verification_status := VerificationStatus.AVAILABLE,
    confidence_score := 1, notes := none, error_message := none }

/-- An ElevenLabs poll response that never becomes terminal. -/
def in_progress_el : ElevenLabsCallStatus := { status := "in_progress", transcript := none }

/-- An ElevenLabs poll response with status `no_answer` (terminal for the
source, though outside the spec's `{completed, failed, error}`). -/
def no_answer_el : ElevenLabsCallStatus := { status := "no_answer", transcript := none }

/-- A Bland AI call record still in progress. -/
def in_progress_bland : BlandCallResult :=
  { call_id := "c1", status := "in_progress", duration := 0, transcript := none,
    success := false }

/-- A completed Bland AI call record. -/
def completed_bland : BlandCallResult :=
  { call_id := "c1", status := "completed", duration := 30,
    transcript := some "yes", success := true }

/-- A Bland AI poll observation that does not end the polling loop: either a
fetch error (`None`) or a record whose status is not terminal. -/
def blandNonTerminal : Option BlandCallResult → Bool
  | none => true
  | some r => !(bland_terminal_statuses.contains r.status)

/-- An ElevenLabs poll observation that keeps the polling loop going: a
successful response whose (lower-cased) status is not terminal. -/
def elOkNonTerminal : Except String ElevenLabsCallStatus → Bool
  | Except.ok st => !(elevenlabs_terminal_statuses.contains (strLower st.status))
  | Except.error _ => false

/-- Property 7: it exists but its agent phone is the empty string (also
rejected by the `agent_phone != ''` condition of the SQL query). -/
def empty_phone_row : PropertyRow :=
  { id := 7, full_address := some "2 Sample Street", agent_phone := some "",
    agent_name := some "A. Agent" }

/-- A queued verification job for property 7. -/
def job7 : VerificationJobM :=
  { property_id := 7, status := JobStatus.queued, error := none, result := none }

/-! Helper lemmas for the queue model. -/

lemma countP_middle (p : JobT → Bool) (l₁ l₂ : List JobT) (j : JobT) :
    (l₁ ++ j :: l₂).countP p =
      l₁.countP p + l₂.countP p + (if p j then 1 else 0) := by
  by_cases hj : p j <;> simp [List.countP_append, List.countP_cons, hj] <;> omega

lemma countP_le_of_imp (p q : JobT → Bool) (l : List JobT)
    (h : ∀ a ∈ l, p a = true → q a = true) : l.countP p ≤ l.countP q := by
  induction l with
  | nil => simp
  | cons a t ih =>
    have ht := ih (fun x hx => h x (List.mem_cons_of_mem _ hx))
    by_cases hpa : p a = true
    · have hqa := h a (List.mem_cons_self _ _) hpa
      simp [List.countP_cons, hpa, hqa]; omega
    · simp only [List.countP_cons]
      by_cases hqa : q a = true <;> simp [hpa, hqa] <;> omega

lemma mem_of_split {s : QState} {l₁ l₂ : List JobT} {j : JobT}
    (hjobs : s.jobs = l₁ ++ j :: l₂) : j ∈ s.jobs := by
  rw [hjobs]; exact List.mem_append_right _ (List.mem_cons_self _ _)

lemma coherAll_update {s : QState} (hc : ∀ x ∈ s.jobs, coher x)
    {l₁ l₂ : List JobT} {j : JobT} (hjobs : s.jobs = l₁ ++ j :: l₂)
    (j' : JobT) (hj' : coher j') : ∀ x ∈ l₁ ++ j' :: l₂, coher x := by
  intro x hx
  rcases List.mem_append.mp hx with h1 | h2
  · exact hc x (by rw [hjobs]; exact List.mem_append_left _ h1)
  · rcases List.mem_cons.mp h2 with rfl | h3
    · exact hj'
    · exact hc x (by rw [hjobs]; exact List.mem_append_right _ (List.mem_cons_of_mem _ h3))

lemma qinv_init (m : Nat) : QInv m initState := by
  refine ⟨rfl, Nat.zero_le m, ?_⟩
  intro j hj
  simp [initState] at hj

lemma qinv_step {m : Nat} {s s' : QState} (hs : QInv m s) (h : Step m s s') :
    QInv m s' := by
  obtain ⟨hA, hL, hC⟩ := hs
  cases h with
  | enqueue fails =>
    refine ⟨?_, hL, ?_⟩
    · simpa [countActive, List.countP_append, countedPc] using hA
    · intro x hx
      rcases List.mem_append.mp hx with h1 | h2
      · exact hC x h1
      · simp at h2; subst h2; simp [coher]
  | admitJob l₁ j l₂ hjobs hpc hdpc hlock hact =>
    rw [countActive, hjobs, countP_middle] at hA
    refine ⟨?_, Nat.succ_le_of_lt hact, coherAll_update hC hjobs _ ?_⟩
    · simp only [countActive, countP_middle]
      simp [hpc, countedPc] at hA ⊢
      omega
    · have := hC j (mem_of_split hjobs)
      simp [coher, hpc] at this
      simp [coher, this]
  | dispatchBlock l₁ j l₂ hjobs hpc hdpc hlock hact =>
    exact ⟨hA, hL, hC⟩
  | dispatchResume l₁ j l₂ hjobs hpc hdpc hlock hact =>
    rw [countActive, hjobs, countP_middle] at hA
    refine ⟨?_, Nat.succ_le_of_lt hact, coherAll_update hC hjobs _ ?_⟩
    · simp only [countActive, countP_middle]
      simp [hpc, countedPc] at hA ⊢
      omega
    · have := hC j (mem_of_split hjobs)
      simp [coher, hpc] at this
      simp [coher, this]
  | acquire1 l₁ j l₂ hjobs hpc hlock =>
    rw [countActive, hjobs, countP_middle] at hA
    refine ⟨?_, hL, coherAll_update hC hjobs _ ?_⟩
    · simp only [countActive, countP_middle]
      simp [hpc, countedPc] at hA ⊢
      omega
    · have := hC j (mem_of_split hjobs)
      simp [coher, hpc] at this
      simp [coher, this]
  | setProcessing l₁ j l₂ hjobs hpc hlock =>
    rw [countActive, hjobs, countP_middle] at hA
    refine ⟨?_, hL, coherAll_update hC hjobs _ ?_⟩
    · simp only [countActive, countP_middle]
      simp [hpc, countedPc] at hA ⊢
      omega
    · simp [coher]
  | finishBody l₁ j l₂ hjobs hpc =>
    rw [countActive, hjobs, countP_middle] at hA
    refine ⟨?_, hL, coherAll_update hC hjobs _ ?_⟩
    · simp only [countActive, countP_middle]
      simp [hpc, countedPc] at hA ⊢
      omega
    · by_cases hf : j.fails <;> simp [coher, hf]
  | acquire2 l₁ j l₂ hjobs hpc hlock =>
    rw [countActive, hjobs, countP_middle] at hA
    refine ⟨?_, hL, coherAll_update hC hjobs _ ?_⟩
    · simp only [countActive, countP_middle]
      simp [hpc, countedPc] at hA ⊢
      omega
    · have := hC j (mem_of_split hjobs)
      simp [coher, hpc] at this
      simp [coher]
      exact this
  | finalize l₁ j l₂ hjobs hpc hlock =>
    rw [countActive, hjobs, countP_middle] at hA
    refine ⟨?_, Nat.le_trans (Nat.sub_le _ _) hL, coherAll_update hC hjobs _ ?_⟩
    · simp only [countActive, countP_middle]
      simp [hpc, countedPc] at hA ⊢
      omega
    · have := hC j (mem_of_split hjobs)
      simp [coher, hpc] at this
      simp [coher]
      exact this

lemma qinv_reachable {m : Nat} {s : QState} (h : QueueReachable m s) : QInv m s := by
  induction h with
  | refl => exact qinv_init m
  | tail _ hstep ih => exact qinv_step ih hstep

lemma processing_le_active {m : Nat} {s : QState} (hinv : QInv m s) :
    countProcessing s ≤ s.active := by
  rw [hinv.activeEq]
  refine countP_le_of_imp _ _ _ ?_
  intro j hj hp
  have hc := hinv.coherAll j hj
  simp only [beq_iff_eq] at hp
  cases hpc : j.pc
  case running => decide
  all_goals simp only [coher, hpc] at hc
  case unstarted => rw [hp] at hc; simp at hc
  case started => rw [hp] at hc; simp at hc
  case inCrit1 => rw [hp] at hc; simp at hc
  case bodyDone => rw [hp] at hc; rcases hc with hc | hc <;> simp at hc
  case inCrit2 => rw [hp] at hc; rcases hc with hc | hc <;> simp at hc
  case finished => rw [hp] at hc; rcases hc with hc | hc <;> simp at hc

lemma processing_increase_locked {m : Nat} {s s' : QState} (h : Step m s s')
    (hinc : countProcessing s < countProcessing s') :
    ∃ i, s.lock = some (LockHolder.worker i) := by
  cases h with
  | enqueue fails =>
    exfalso
    simp only [countProcessing, List.countP_append, List.countP_cons,
      List.countP_nil] at hinc
    simp at hinc
  | admitJob l₁ j l₂ hjobs hpc hdpc hlock hact =>
    exfalso
    simp only [countProcessing, hjobs] at hinc
    rw [countP_middle, countP_middle] at hinc
    simp at hinc
  | dispatchBlock l₁ j l₂ hjobs hpc hdpc hlock hact =>
    exfalso
    simp only [countProcessing] at hinc
    omega
  | dispatchResume l₁ j l₂ hjobs hpc hdpc hlock hact =>
    exfalso
    simp only [countProcessing, hjobs] at hinc
    rw [countP_middle, countP_middle] at hinc
    simp at hinc
  | acquire1 l₁ j l₂ hjobs hpc hlock =>
    exfalso
    simp only [countProcessing, hjobs] at hinc
    rw [countP_middle, countP_middle] at hinc
    simp at hinc
  | setProcessing l₁ j l₂ hjobs hpc hlock =>
    exact ⟨l₁.length, hlock⟩
  | finishBody l₁ j l₂ hjobs hpc =>
    exfalso
    simp only [countProcessing, hjobs] at hinc
    rw [countP_middle, countP_middle] at hinc
    by_cases hf : j.fails <;> simp [hf] at hinc
  | acquire2 l₁ j l₂ hjobs hpc hlock =>
    exfalso
    simp only [countProcessing, hjobs] at hinc
    rw [countP_middle, countP_middle] at hinc
    simp at hinc
  | finalize l₁ j l₂ hjobs hpc hlock =>
    exfalso
    simp only [countProcessing, hjobs] at hinc
    rw [countP_middle, countP_middle] at hinc
    simp at hinc

lemma reach_traceS1 : QueueReachable 1 traceS1 :=
  Relation.ReflTransGen.tail Relation.ReflTransGen.refl (Step.enqueue initState false)

lemma reach_traceS6 : QueueReachable 1 traceS6 := by
  have h2 : Step 1 traceS1 traceS2 := Step.enqueue traceS1 false
  have h3 : Step 1 traceS2 traceS3 :=
    Step.admitJob traceS2 [] jobQ [jobQ] rfl rfl rfl rfl (by decide)
  have h4 : Step 1 traceS3 traceS4 :=
    Step.acquire1 traceS3 [] { jobQ with pc := WPc.started } [jobQ] rfl rfl rfl
  have h5 : Step 1 traceS4 traceS5 :=
    Step.setProcessing traceS4 [] { jobQ with pc := WPc.inCrit1 } [jobQ] rfl rfl rfl
  have h6 : Step 1 traceS5 traceS6 :=
    Step.dispatchBlock traceS5
      [{ status := JobStatus.processing, fails := false, pc := WPc.running }] jobQ []
      rfl rfl rfl rfl (by decide)
  exact ((((reach_traceS1.tail h2).tail h3).tail h4).tail h5).tail h6

/-- C2 (amended): at every reachable state of the job queue, the number of
jobs whose status is `PROCESSING` is at most `max_concurrent`; the bound is
enforced by the `active_jobs` counter, incremented before a worker is
launched and decremented when the worker finishes, and every step that
raises the number of `PROCESSING` jobs (the `Queued → Processing` transition)
is taken while its worker holds the queue lock.  (The transitions to
`COMPLETED`/`FAILED` are performed outside the lock — see the
counterexample.) -/
theorem c2_bounded_concurrency :
    (∀ (m : Nat) (s : QState), QueueReachable m s → countProcessing s ≤ m) ∧
    (∀ (m : Nat) (s s' : QState), Step m s s' →
      countProcessing s < countProcessing s' →
      ∃ i, s.lock = some (LockHolder.worker i)) := by
  constructor
  · intro m s hreach
    have hinv := qinv_reachable hreach
    exact le_trans (processing_le_active hinv) hinv.activeLe
  · intro m s s' h hinc
    exact processing_increase_locked h hinc

/-- Witness for C2: at the concrete reachable state `traceS6` of a
`max_concurrent = 1` queue, exactly one job is `PROCESSING` and the bound
holds. -/
theorem c2_bounded_concurrency_witness :
    countProcessing traceS6 = 1 ∧ countProcessing traceS6 ≤ 1 :=
  ⟨rfl, c2_bounded_concurrency.1 1 traceS6 reach_traceS6⟩

/-- Counterexample for C2 as stated: from the reachable state `traceS6`
(job 0 `PROCESSING`, the dispatcher holding the queue lock while it spins in
its admission wait), the step in which job 0's worker writes
`status = COMPLETED` happens while the lock is continuously held by the
dispatcher — so this status transition is not performed under the queue
lock. -/
theorem c2_counterexample_unlocked_transition :
    QueueReachable 1 traceS6 ∧ Step 1 traceS6 traceS7 ∧
    traceS6.lock = some LockHolder.dispatcher ∧
    traceS7.lock = some LockHolder.dispatcher ∧
    traceS6.jobs.map JobT.status = [JobStatus.processing, JobStatus.queued] ∧
    traceS7.jobs.map JobT.status = [JobStatus.completed, JobStatus.queued] := by
  refine ⟨reach_traceS6, ?_, rfl, rfl, rfl, rfl⟩
  exact Step.finishBody traceS6 []
    { status := JobStatus.processing, fails := false, pc := WPc.running } [jobQ] rfl rfl

/-- C8: an exception raised by the job handler is caught per job: the job
ends `FAILED` with `error` set to the stringified exception, a normal return
ends `COMPLETED` with the result stored, and the dispatch loop can always
take its next admission step regardless of failed jobs (handler exceptions
never crash it). -/
theorem c8_handler_exceptions_caught :
    (∀ (job : VerificationJobM) (e : String),
      process_job job (Except.error e) =
        { job with status := JobStatus.failed, error := some e }) ∧
    (∀ (job : VerificationJobM) (r : VerificationResultM),
      process_job job (Except.ok r) =
        { job with status := JobStatus.completed, result := some r }) ∧
    (∀ (m : Nat) (s : QState) (l₁ : List JobT) (j : JobT) (l₂ : List JobT),
      QueueReachable m s → s.jobs = l₁ ++ j :: l₂ → j.pc = WPc.unstarted →
      s.dpc = DPc.dIdle → s.lock = none → s.active < m →
      ∃ s', Step m s s') := by
  refine ⟨fun job e => rfl, fun job r => rfl, ?_⟩
  intro m s l₁ j l₂ _ hjobs hpc hdpc hlock hact
  exact ⟨_, Step.admitJob s l₁ j l₂ hjobs hpc hdpc hlock hact⟩

/-- Witness for C8: a concrete failing handler marks the job `FAILED` with
the stringified error, and from the concrete reachable state with one queued
job the dispatcher can step. -/
theorem c8_handler_exceptions_caught_witness :
    process_job job43 (Except.error "ValueError: boom") =
      { job43 with status := JobStatus.failed, error := some "ValueError: boom" } ∧
    ∃ s', Step 1 traceS1 s' :=
  ⟨c8_handler_exceptions_caught.1 job43 "ValueError: boom",
   c8_handler_exceptions_caught.2.2 1 traceS1 [] jobQ [] reach_traceS1 rfl rfl rfl rfl
     (by decide)⟩

/-! Helper lemmas for the classifier. -/

lemma anyKeyword_of_mem {k : String} {kws : List String} (hk : k ∈ kws)
    {lower : List Char} (h : containsSub k.data lower = true) :
    anyKeyword kws lower = true :=
  List.any_eq_true.mpr ⟨k, hk, h⟩

lemma data_ne_empty_of_containsSub {needle : List Char} {t : String}
    (hn : needle.isEmpty = false)
    (h : containsSub needle (t.data.map Char.toLower) = true) :
    t.data.isEmpty = false := by
  cases hd : t.data with
  | nil => rw [hd] at h; simp [containsSub, hn] at h
  | cons a l => simp

/-- C10: on every input where `_analyze_transcript` takes a branch other
than an available classification — a missing/empty transcript, a
no-family user statement, a matched unavailable keyword, or a matched
unsure keyword — it raises `AttributeError` instead of returning, because
`VerificationStatus` has no `UNSURE`/`UNAVAILABLE` member; the only normal
returns are `AVAILABLE`. -/
theorem c10_missing_enum_members_raise :
    (∀ (t : Option String) (lt : Option String) (s : VerificationStatus),
      analyze_transcript t lt = Except.ok s → s = VerificationStatus.AVAILABLE) ∧
    (∀ lt, analyze_transcript none lt =
      Except.error (PyErr.attributeError "VerificationStatus" "UNSURE")) ∧
    (∀ lt, analyze_transcript (some "") lt =
      Except.error (PyErr.attributeError "VerificationStatus" "UNSURE")) ∧
    (∀ (t : String) (lt : Option String),
      t.data.isEmpty = false →
      firstYesNo (user_statements (t.data.map Char.toLower)) = some false →
      analyze_transcript (some t) lt =
        Except.error (PyErr.attributeError "VerificationStatus" "UNAVAILABLE")) ∧
    (∀ (t : String) (lt : Option String),
      t.data.isEmpty = false →
      firstYesNo (user_statements (t.data.map Char.toLower)) = none →
      anyKeyword unavailable_keywords (t.data.map Char.toLower) = true →
      analyze_transcript (some t) lt =
        Except.error (PyErr.attributeError "VerificationStatus" "UNAVAILABLE")) ∧
    (∀ (t : String) (lt : Option String),
      t.data.isEmpty = false →
      firstYesNo (user_statements (t.data.map Char.toLower)) = none →
      anyKeyword unavailable_keywords (t.data.map Char.toLower) = false →
      anyKeyword available_keywords (t.data.map Char.toLower) = false →
      anyKeyword unsure_keywords (t.data.map Char.toLower) = true →
      analyze_transcript (some t) lt =
        Except.error (PyErr.attributeError "VerificationStatus" "UNSURE")) := by
  refine ⟨?_, fun lt => rfl, fun lt => rfl, ?_, ?_, ?_⟩
  · intro t lt s h
    cases t with
    | none =>
      exact absurd h (by simp [analyze_transcript, statusAttr, VerificationStatus.fromName])
    | some t =>
      simp only [analyze_transcript] at h
      split at h
      case isTrue => simp [statusAttr, VerificationStatus.fromName] at h
      case isFalse =>
        split at h
        next => simp [statusAttr, VerificationStatus.fromName] at h
        next =>
          simp [statusAttr, VerificationStatus.fromName] at h
          exact h.symm
        next =>
          split at h
          next => simp [statusAttr, VerificationStatus.fromName] at h
          next =>
            split at h
            next =>
              simp [statusAttr, VerificationStatus.fromName] at h
              exact h.symm
            next =>
              split at h
              next => simp [statusAttr, VerificationStatus.fromName] at h
              next =>
                split at h
                next => simp [statusAttr, VerificationStatus.fromName] at h
                next =>
                  split at h
                  next =>
                    simp [statusAttr, VerificationStatus.fromName] at h
                    exact h.symm
                  next => simp [statusAttr, VerificationStatus.fromName] at h
  · intro t lt hne hyn
    simp only [analyze_transcript]
    simp [hne, hyn, statusAttr, VerificationStatus.fromName]
  · intro t lt hne hyn hkw
    simp only [analyze_transcript]
    simp [hne, hyn, hkw, statusAttr, VerificationStatus.fromName]
  · intro t lt hne hyn hun hav hunsure
    simp only [analyze_transcript]
    simp [hne, hyn, hun, hav, hunsure, statusAttr, VerificationStatus.fromName]

/-- Witness for C10: concrete inputs exercising the missing-member branches
and the only normal-return branch. -/
theorem c10_missing_enum_members_raise_witness :
    analyze_transcript none (some "rent") =
      Except.error (PyErr.attributeError "VerificationStatus" "UNSURE") ∧
    analyze_transcript (some "user: no") (some "rent") =
      Except.error (PyErr.attributeError "VerificationStatus" "UNAVAILABLE") ∧
    analyze_transcript (some "it is taken") (some "rent") =
      Except.error (PyErr.attributeError "VerificationStatus" "UNAVAILABLE") ∧
    analyze_transcript (some "not sure") (some "rent") =
      Except.error (PyErr.attributeError "VerificationStatus" "UNSURE") ∧
    VerificationStatus.AVAILABLE = VerificationStatus.AVAILABLE :=
  ⟨c10_missing_enum_members_raise.2.1 (some "rent"),
   c10_missing_enum_members_raise.2.2.2.1 "user: no" (some "rent") rfl rfl,
   c10_missing_enum_members_raise.2.2.2.2.1 "it is taken" (some "rent") rfl rfl rfl,
   c10_missing_enum_members_raise.2.2.2.2.2 "not sure" (some "rent") rfl rfl rfl rfl rfl,
   c10_missing_enum_members_raise.1 (some "yes") (some "rent")
     VerificationStatus.AVAILABLE rfl⟩

/-- Counterexample for C3: the transcript "maybe available" contains both
"maybe" and "available", yet `_analyze_transcript` classifies it AVAILABLE —
the available-keyword tier runs before the unsure-keyword tier, so the
uncertainty phrase does not pre-empt the availability keyword. -/
theorem c3_counterexample_maybe_available :
    analyze_transcript (some "maybe available") (some "rent") =
      Except.ok VerificationStatus.AVAILABLE := rfl

/-- C3 (amended): a transcript containing both "maybe" and "available"
(lower-cased), with no extracted user yes/no statement and no unavailable
keyword match, is classified `AVAILABLE`: the available-keyword tier is
checked before the uncertainty tier, so hedged statements are read as
affirmative rather than Unsure. -/
theorem c3_amended_available_tier_first (t : String) (lt : Option String)
    (hyn : firstYesNo (user_statements (t.data.map Char.toLower)) = none)
    (hun : anyKeyword unavailable_keywords (t.data.map Char.toLower) = false)
    (hmaybe : containsSub "maybe".data (t.data.map Char.toLower) = true)
    (hav : containsSub "available".data (t.data.map Char.toLower) = true) :
    analyze_transcript (some t) lt = Except.ok VerificationStatus.AVAILABLE := by
  have hne : t.data.isEmpty = false :=
    data_ne_empty_of_containsSub (by decide) hav
  have havKey : anyKeyword available_keywords (t.data.map Char.toLower) = true :=
    anyKeyword_of_mem (by decide) hav
  simp only [analyze_transcript]
  simp [hne, hyn, hun, havKey, statusAttr, VerificationStatus.fromName]

/-- Witness for the amended C3 at the transcript "maybe available". -/
theorem c3_amended_available_tier_first_witness :
    analyze_transcript (some "maybe available") (some "sale") =
      Except.ok VerificationStatus.AVAILABLE :=
  c3_amended_available_tier_first "maybe available" (some "sale") rfl rfl rfl rfl

/-- Counterexample for C4: the classifier does not return a
(status, confidence) pair on every input — on the transcript "maybe" it
raises `AttributeError` (there is no `VerificationStatus.UNSURE` member) and
returns nothing at all; its normal returns carry a bare status with no
confidence. -/
theorem c4_counterexample_raises :
    analyze_transcript (some "maybe") (some "rent") =
      Except.error (PyErr.attributeError "VerificationStatus" "UNSURE") := rfl

/-- C4 (amended): `_analyze_transcript` is a pure, deterministic function of
the transcript alone — the `listing_type` argument is never read, so any two
calls with the same transcript produce the identical outcome (a bare status
when it completes, an `AttributeError` otherwise, never a pair with a
confidence). -/
theorem c4_amended_deterministic :
    ∀ (t : Option String) (lt lt' : Option String),
      analyze_transcript t lt = analyze_transcript t lt' :=
  fun _ _ _ => rfl

/-- C5 (code bug): `classify("No.", t)` and transcripts containing "sold"
do not return Unavailable — `_analyze_transcript` raises `AttributeError`
because `VerificationStatus` has no `UNAVAILABLE`/`UNSURE` member.  A
transcript containing "sold" takes the unavailable-keyword branch and raises
on `UNAVAILABLE`; "No." is not extracted by the user-response patterns (no
"user:"/"caller" attribution), falls through every keyword tier, and raises
on `UNSURE` in the fallback. -/
theorem c5_sold_and_no_raise :
    analyze_transcript (some "sold") (some "sale") =
      Except.error (PyErr.attributeError "VerificationStatus" "UNAVAILABLE") ∧
    analyze_transcript (some "Sold already, sorry.") (some "rent") =
      Except.error (PyErr.attributeError "VerificationStatus" "UNAVAILABLE") ∧
    analyze_transcript (some "No.") (some "sale") =
      Except.error (PyErr.attributeError "VerificationStatus" "UNSURE") :=
  ⟨rfl, rfl, rfl⟩

/-- C6 (code bug): `classify("", t)` and `classify(None, t)` do not return
(Unsure, 0.3) — the empty-transcript branch is `return
VerificationStatus.UNSURE`, which raises `AttributeError` because the enum
has no `UNSURE` member (and the function has no confidence output at all). -/
theorem c6_empty_transcript_raises :
    analyze_transcript (some "") (some "rent") =
      Except.error (PyErr.attributeError "VerificationStatus" "UNSURE") ∧
    analyze_transcript none (some "sale") =
      Except.error (PyErr.attributeError "VerificationStatus" "UNSURE") :=
  ⟨rfl, rfl⟩

/-- Counterexample for C1: with mock mode off (the configuration the source
logs as "PRODUCTION MODE"), the number dialled is still the mock phone
number, not the agent's; and the client chosen depends on whether pytest is
loaded in `sys.modules` — the selection does inspect the test environment. -/
theorem c1_counterexample_production_dials_mock :
    phone_to_call production_settings "+447911123456" ≠ "+447911123456" ∧
    phone_to_call production_settings "+447911123456" = "+15005550006" ∧
    production_settings.bland_ai_mock_mode = false ∧
    get_bland_client true production_settings ≠
      get_bland_client false production_settings := by
  refine ⟨?_, rfl, rfl, ?_⟩ <;> decide

/-- C1 (amended): phone-target selection takes no operating-mode input at
all — `_verify_property_async` always dials
`settings.bland_ai_mock_phone_number` whatever the mode and never refuses a
call or records a safety violation, while `get_bland_client` substitutes the
mock client exactly when pytest is present in `sys.modules` (runtime
test-environment introspection). -/
theorem c1_amended_selection_ignores_mode :
    (∀ (settings : BlandSettings) (agent_phone : String),
      phone_to_call settings agent_phone = settings.bland_ai_mock_phone_number) ∧
    (∀ settings, get_bland_client true settings = BlandClientKind.mockClient) ∧
    (∀ settings, get_bland_client false settings = BlandClientKind.realClient) :=
  ⟨fun _ _ => rfl, fun _ => rfl, fun _ => rfl⟩

/-! Helper lemma for C7. -/

lemma lookup_none_of_no_phone {db : List PropertyRow} {pid : Int}
    (h : ∀ row ∈ db, row.id = pid → falsyOptStr row.agent_phone = true) :
    get_property_for_verification db pid = none := by
  refine List.find?_eq_none.mpr ?_
  intro x hx
  by_cases hid : x.id = pid
  · have hph := h x hx hid
    simp [hid, hph]
  · simp [hid]

/-- Counterexample for C7: property 43 exists but has no agent phone; the
processed job ends `FAILED` (not `Completed` with an Unclear result): the
handler raises `ValueError` and `_process_job` records it.  The enqueue
endpoint refuses such a property outright with a 404. -/
theorem c7_counterexample_missing_phone_fails :
    (process_job job43
        (process_verification_jobs configured_settings [no_phone_row]
          (Except.ok dummy_result) job43)).status = JobStatus.failed ∧
    (process_job job43
        (process_verification_jobs configured_settings [no_phone_row]
          (Except.ok dummy_result) job43)).status ≠ JobStatus.completed ∧
    (process_job job43
        (process_verification_jobs configured_settings [no_phone_row]
          (Except.ok dummy_result) job43)).error =
      some "Property 43 not found or has no agent phone" ∧
    (process_job job43
        (process_verification_jobs configured_settings [no_phone_row]
          (Except.ok dummy_result) job43)).result = none ∧
    start_property_verification configured_settings [no_phone_row] 43 =
      HttpResult.httpException 404
        "Property 43 not found or has no agent phone number" := by
  refine ⟨rfl, by decide, rfl, rfl, rfl⟩

/-- C7 (amended): a property that exists but has no agent phone (or an empty
one) is refused by the enqueue endpoint with a 404 before any job exists;
and if a job for such a property is processed anyway, the handler raises
`ValueError` and the job finishes `FAILED` with the error recorded — never
`Completed` with an Unclear result. -/
theorem c7_amended_missing_phone_rejected :
    (∀ (settings : AppSettings) (db : List PropertyRow) (pid : Int),
      falsyOptStr settings.elevenlabs_api_key = false →
      (∀ row ∈ db, row.id = pid → falsyOptStr row.agent_phone = true) →
      start_property_verification settings db pid =
        HttpResult.httpException 404
          ("Property " ++ toString pid ++ " not found or has no agent phone number")) ∧
    (∀ (settings : AppSettings) (db : List PropertyRow)
        (vo : Except String VerificationResultM) (job : VerificationJobM),
      falsyOptStr settings.elevenlabs_agent_id = false →
      falsyOptStr settings.elevenlabs_phone_number = false →
      (∀ row ∈ db, row.id = job.property_id → falsyOptStr row.agent_phone = true) →
      process_job job (process_verification_jobs settings db vo job) =
        { job with status := JobStatus.failed,
                   error := some ("Property " ++ toString job.property_id ++
                     " not found or has no agent phone") }) := by
  constructor
  · intro settings db pid hkey hnone
    simp only [start_property_verification, hkey, lookup_none_of_no_phone hnone]
    simp
  · intro settings db vo job hagent hphone hnone
    simp only [process_verification_jobs, hagent, hphone,
      lookup_none_of_no_phone hnone]
    simp [process_job]

/-- Witness for the amended C7 at property 7, whose agent phone is the empty
string. -/
theorem c7_amended_missing_phone_rejected_witness :
    start_property_verification configured_settings [empty_phone_row] 7 =
      HttpResult.httpException 404
        "Property 7 not found or has no agent phone number" ∧
    process_job job7
        (process_verification_jobs configured_settings [empty_phone_row]
          (Except.ok dummy_result) job7) =
      { job7 with status := JobStatus.failed,
                  error := some "Property 7 not found or has no agent phone" } :=
  ⟨c7_amended_missing_phone_rejected.1 configured_settings [empty_phone_row] 7 rfl
      (by intro row hr hid; simp at hr; subst hr; rfl),
   c7_amended_missing_phone_rejected.2 configured_settings [empty_phone_row]
      (Except.ok dummy_result) job7 rfl rfl
      (by intro row hr hid; simp at hr; subst hr; rfl)⟩

/-! Helper lemmas for C9. -/

lemma bland_wait_all_nonterminal (polls : List (Option BlandCallResult))
    (h : ∀ p ∈ polls, blandNonTerminal p = true) :
    wait_for_call_completion polls = none := by
  induction polls with
  | nil => rfl
  | cons p rest ih =>
    have hrest := ih (fun q hq => h q (List.mem_cons_of_mem _ hq))
    have hp := h p (List.mem_cons_self _ _)
    cases p with
    | none => simpa [wait_for_call_completion] using hrest
    | some r =>
      simp only [blandNonTerminal, Bool.not_eq_true'] at hp
      have hnm : r.status ∉ bland_terminal_statuses := by simpa using hp
      simp [wait_for_call_completion, hnm, hrest]

lemma bland_wait_first_terminal (l₁ l₂ : List (Option BlandCallResult))
    (r : BlandCallResult)
    (h1 : ∀ p ∈ l₁, blandNonTerminal p = true)
    (hr : bland_terminal_statuses.contains r.status = true) :
    wait_for_call_completion (l₁ ++ some r :: l₂) = some r := by
  induction l₁ with
  | nil =>
    have hm : r.status ∈ bland_terminal_statuses := by simpa using hr
    simp [wait_for_call_completion, hm]
  | cons p rest ih =>
    have hrest := ih (fun q hq => h1 q (List.mem_cons_of_mem _ hq))
    have hp := h1 p (List.mem_cons_self _ _)
    cases p with
    | none => simpa [wait_for_call_completion] using hrest
    | some x =>
      simp only [blandNonTerminal, Bool.not_eq_true'] at hp
      have hnm : x.status ∉ bland_terminal_statuses := by simpa using hp
      simp [wait_for_call_completion, hnm, hrest]

lemma el_wait_all_nonterminal (cid : String) (mw : Nat)
    (polls : List (Except String ElevenLabsCallStatus))
    (h : ∀ p ∈ polls, elOkNonTerminal p = true) :
    el_wait_for_call_completion cid mw polls =
      Except.error (PyErr.timeoutError
        ("Call " ++ cid ++ " did not complete within " ++ toString mw ++ " seconds")) := by
  induction polls with
  | nil => rfl
  | cons p rest ih =>
    have hrest := ih (fun q hq => h q (List.mem_cons_of_mem _ hq))
    have hp := h p (List.mem_cons_self _ _)
    cases p with
    | error e => simp [elOkNonTerminal] at hp
    | ok st =>
      simp only [elOkNonTerminal, Bool.not_eq_true'] at hp
      have hnm : strLower st.status ∉ elevenlabs_terminal_statuses := by simpa using hp
      simp [el_wait_for_call_completion, hnm, hrest]

lemma el_wait_first_terminal (cid : String) (mw : Nat)
    (l₁ l₂ : List (Except String ElevenLabsCallStatus)) (st : ElevenLabsCallStatus)
    (h1 : ∀ p ∈ l₁, elOkNonTerminal p = true)
    (hst : elevenlabs_terminal_statuses.contains (strLower st.status) = true) :
    el_wait_for_call_completion cid mw (l₁ ++ Except.ok st :: l₂) = Except.ok st := by
  induction l₁ with
  | nil =>
    have hm : strLower st.status ∈ elevenlabs_terminal_statuses := by simpa using hst
    simp [el_wait_for_call_completion, hm]
  | cons p rest ih =>
    have hrest := ih (fun q hq => h1 q (List.mem_cons_of_mem _ hq))
    have hp := h1 p (List.mem_cons_self _ _)
    cases p with
    | error e => simp [elOkNonTerminal] at hp
    | ok x =>
      simp only [elOkNonTerminal, Bool.not_eq_true'] at hp
      have hnm : strLower x.status ∉ elevenlabs_terminal_statuses := by simpa using hp
      simp [el_wait_for_call_completion, hnm, hrest]

/-- Counterexample for C9: when no terminal status is reached within the
window, `ElevenLabsClient.wait_for_call_completion` raises `TimeoutError`
rather than returning a timeout value; moreover its terminal set includes
`no_answer`, which is outside the spec's `{completed, failed, error}`, and
such a call returns the record instead of timing out. -/
theorem c9_counterexample_elevenlabs_raises :
    el_wait_for_call_completion "call-9" 600 [Except.ok in_progress_el, Except.ok in_progress_el] =
      Except.error (PyErr.timeoutError
        "Call call-9 did not complete within 600 seconds") ∧
    el_wait_for_call_completion "call-10" 600 [Except.ok no_answer_el] =
      Except.ok no_answer_el :=
  ⟨rfl, rfl⟩

/-- C9 (amended): `BlandAIClient.wait_for_call_completion` returns `None` —
a value, not an exception — when no poll in the window is terminal
(`{completed, failed, error}`), and returns the first terminal record
otherwise; `ElevenLabsClient.wait_for_call_completion` instead raises
`TimeoutError` when its window closes without a terminal status, and its
terminal set is `{completed, failed, failed_to_connect, no_answer}`. -/
theorem c9_amended_timeout_behaviour :
    (∀ polls : List (Option BlandCallResult),
      (∀ p ∈ polls, blandNonTerminal p = true) →
      wait_for_call_completion polls = none) ∧
    (∀ (l₁ l₂ : List (Option BlandCallResult)) (r : BlandCallResult),
      (∀ p ∈ l₁, blandNonTerminal p = true) →
      bland_terminal_statuses.contains r.status = true →
      wait_for_call_completion (l₁ ++ some r :: l₂) = some r) ∧
    (∀ (cid : String) (mw : Nat) (polls : List (Except String ElevenLabsCallStatus)),
      (∀ p ∈ polls, elOkNonTerminal p = true) →
      el_wait_for_call_completion cid mw polls =
        Except.error (PyErr.timeoutError
          ("Call " ++ cid ++ " did not complete within " ++ toString mw ++ " seconds"))) ∧
    (∀ (cid : String) (mw : Nat)
        (l₁ l₂ : List (Except String ElevenLabsCallStatus)) (st : ElevenLabsCallStatus),
      (∀ p ∈ l₁, elOkNonTerminal p = true) →
      elevenlabs_terminal_statuses.contains (strLower st.status) = true →
      el_wait_for_call_completion cid mw (l₁ ++ Except.ok st :: l₂) = Except.ok st) :=
  ⟨bland_wait_all_nonterminal, fun l₁ l₂ r h1 hr => bland_wait_first_terminal l₁ l₂ r h1 hr,
   el_wait_all_nonterminal,
   fun cid mw l₁ l₂ st h1 hst => el_wait_first_terminal cid mw l₁ l₂ st h1 hst⟩

/-- Witness for the amended C9 on concrete poll sequences. -/
theorem c9_amended_timeout_behaviour_witness :
    wait_for_call_completion [some in_progress_bland, none] = none ∧
    wait_for_call_completion [some in_progress_bland, some completed_bland] =
      some completed_bland ∧
    el_wait_for_call_completion "c3" 120 [Except.ok in_progress_el] =
      Except.error (PyErr.timeoutError "Call c3 did not complete within 120 seconds") :=
  ⟨c9_amended_timeout_behaviour.1 [some in_progress_bland, none] (by decide),
   c9_amended_timeout_behaviour.2.1 [some in_progress_bland] [] completed_bland
     (by decide) (by decide),
   c9_amended_timeout_behaviour.2.2.1 "c3" 120 [Except.ok in_progress_el] (by decide)⟩

end ICHack26
